import Mathlib

/-!
Verification of the finplan historical-returns pipeline
(scripts/fetch_historical_returns.py and data/analyze_inflation.py).

Numeric values are modelled as exact rationals or reals; the transcendental
kernels that the Python code evaluates in floating point (square root,
logarithm, real n-th root, the pandas moment estimators) are passed as
function parameters, so structural facts hold for every interpretation and
the claims about their mathematics are stated at the real-valued
instantiation.  Float NaN is modelled as none.
-/

namespace Finplan

/-- Module-level constant CACHE_MAX_AGE_DAYS (fetch_historical_returns.py
line 93).  Python evaluated this once at import time; it is the value captured
by the default parameter of is_cache_valid. -/
def CACHE_MAX_AGE_DAYS : ℚ := 30

/-- is_cache_valid (lines 102-107): the cache file must exist (mtime is some m)
and its age now - m in seconds must be below max_age_days * 86400. -/
def is_cache_valid (mtime : Option ℚ) (now : ℚ) (max_age_days : ℚ) : Bool :=
  match mtime with
  | none => false
  | some m => decide (now - m < max_age_days * 86400)

/-- The cache directory, modelled as an association list from keys to
(payload bytes, write timestamp).  Keys are an abstract type with decidable
equality: get_cache_path derives them as a stable hash of the URL, which the
spec treats as collision-free for this workload. -/
abbrev CacheStore (κ : Type) := List (κ × List ℕ × ℚ)

/-- File-system lookup.  The most recent write to a key wins: save_to_cache
prepends and lookup returns the newest entry, matching write_bytes
overwriting the file in place. -/
def cache_lookup {κ : Type} [DecidableEq κ] : CacheStore κ → κ → Option (List ℕ × ℚ)
  | [], _ => none
  | (k, v) :: rest, key => if k = key then some v else cache_lookup rest key

/-- save_to_cache (lines 110-115): persists the payload under the key,
superseding any prior value. -/
def save_to_cache {κ : Type} (st : CacheStore κ) (key : κ) (data : List ℕ)
    (now : ℚ) : CacheStore κ :=
  (key, data, now) :: st

/-- load_from_cache (lines 118-124): returns the payload if the entry exists
and is_cache_valid holds for it, otherwise nothing. -/
def load_from_cache {κ : Type} [DecidableEq κ] (st : CacheStore κ) (key : κ)
    (now max_age_days : ℚ) : Option (List ℕ) :=
  match cache_lookup st key with
  | none => none
  | some (data, m) =>
    if is_cache_valid (some m) now max_age_days then some data else none

/-- fetch_url_cached (lines 127-139): consult the cache first; on a miss invoke
the network fetch, store the payload and return it.  The last component counts
the invocations of the underlying network fetch. -/
def fetch_url_cached {κ : Type} [DecidableEq κ] (st : CacheStore κ) (key : κ)
    (now max_age_days : ℚ) (net : κ → List ℕ) : List ℕ × CacheStore κ × ℕ :=
  match load_from_cache st key now max_age_days with
  | some cached => (cached, st, 0)
  | none => (net key, save_to_cache st key (net key) now, 1)

/-- The TTL actually applied by the cache-validity checks of a run started with
the flag --cache-days set to cache_days.  main (lines 1504-1506) reassigns the
global CACHE_MAX_AGE_DAYS, but Python bound the default parameter of
is_cache_valid to the module-level value 30 when the function was defined, and
both call sites (lines 121 and 857) omit the argument, so the reassignment
never reaches the check and the effective TTL is 30 days for every run. -/
def run_ttl_days (cache_days : ℚ) : ℚ := CACHE_MAX_AGE_DAYS

/-- Claim C2: the run-level TTL is not honoured.  In a run started with
--cache-days 1, a cache entry written at time 0 and read 5 days later
(age 432000 s, far beyond the 1-day TTL the claim requires) is still served by
the cache-validity check, because the check uses the definition-time default of
30 days. -/
theorem cache_days_flag_ignored :
    load_from_cache [((0 : ℕ), [7], (0 : ℚ))] 0 (5 * 86400) (run_ttl_days 1)
      = some [7] := by
  simp [load_from_cache, cache_lookup, is_cache_valid, run_ttl_days,
    CACHE_MAX_AGE_DAYS]
  norm_num

/-- Claim C9: after fetch_url_cached misses, fetches and stores payload bytes
under a key, a later call for the same key within the TTL window returns
exactly the stored bytes, leaves the store unchanged, and performs zero
additional invocations of the (arbitrary, possibly different) network fetch. -/
theorem cache_hit_avoids_network {κ : Type} [DecidableEq κ]
    (st : CacheStore κ) (key : κ) (t now ttl : ℚ) (net net2 : κ → List ℕ)
    (hmiss : load_from_cache st key t ttl = none)
    (hwin : now - t < ttl * 86400) :
    fetch_url_cached (fetch_url_cached st key t ttl net).2.1 key now ttl net2
      = (net key, (fetch_url_cached st key t ttl net).2.1, 0) := by
  have h1 : fetch_url_cached st key t ttl net
      = (net key, save_to_cache st key (net key) t, 1) := by
    unfold fetch_url_cached
    rw [hmiss]
  rw [h1]
  unfold fetch_url_cached load_from_cache save_to_cache cache_lookup
  simp [is_cache_valid, hwin]

/-- Concrete instance of the cache-hit theorem: store two bytes at time 0,
read them back one day later under a 30-day TTL. -/
theorem cache_hit_avoids_network_witness :
    load_from_cache ([] : CacheStore ℕ) 0 0 30 = none ∧
    (86400 : ℚ) - 0 < 30 * 86400 ∧
    fetch_url_cached (fetch_url_cached ([] : CacheStore ℕ) 0 0 30
        (fun _ => [1, 2])).2.1 0 86400 30 (fun _ => [9])
      = ([1, 2], (fetch_url_cached ([] : CacheStore ℕ) 0 0 30
        (fun _ => [1, 2])).2.1, 0) :=
  ⟨rfl, by norm_num,
    cache_hit_avoids_network ([] : CacheStore ℕ) 0 0 86400 30
      (fun _ => [1, 2]) (fun _ => [9]) rfl (by norm_num)⟩

/-- mean from analyze_inflation.py (lines 20-22): sum divided by length. -/
def list_mean (xs : List ℚ) : ℚ := xs.sum / (xs.length : ℚ)

/-- std_dev from analyze_inflation.py (lines 25-30) with sample=True, the
square root being a parameter (math.sqrt runs in floating point).  For a
single observation the divisor n - 1 is zero and Python raises
ZeroDivisionError (for an empty list the inner mean call already raises);
the uncaught exception is modelled as none. -/
def std_dev_sample (sqrtFn : ℚ → ℚ) (data : List ℚ) : Option ℚ :=
  if data.length ≤ 1 then none
  else some (sqrtFn ((data.map (fun x => (x - list_mean data) ^ 2)).sum
    / ((data.length : ℚ) - 1)))

/-- Growth multipliers 1 + r (analyze_inflation.py line 86). -/
def growth_multipliers (decimal_values : List ℚ) : List ℚ :=
  decimal_values.map (fun r => 1 + r)

/-- The positive-multiplier subset (analyze_inflation.py line 89). -/
def positive_multipliers (decimal_values : List ℚ) : List ℚ :=
  (growth_multipliers decimal_values).filter (fun m => decide (0 < m))

/-- The number of excluded non-positive-multiplier observations, reported by
the warning at analyze_inflation.py lines 91-95. -/
def lognormal_excluded_count (decimal_values : List ℚ) : ℕ :=
  (growth_multipliers decimal_values).length
    - (positive_multipliers decimal_values).length

/-- The LogNormal derivation of analyze_data (analyze_inflation.py lines
86-105).  When the positive-multiplier subset is empty the model is omitted
(Except.ok none); when it is a singleton the std_dev call at line 101 raises
ZeroDivisionError, which nothing catches (Except.error); otherwise the
parameters are the mean and sample standard deviation of the logs of the
positive multipliers. -/
def lognormal_fit (logFn sqrtFn : ℚ → ℚ) (decimal_values : List ℚ) :
    Except String (Option (ℚ × ℚ)) :=
  let pm := positive_multipliers decimal_values
  if pm.isEmpty then Except.ok none
  else
    let log_values := pm.map logFn
    match std_dev_sample sqrtFn log_values with
    | none => Except.error ( "ZeroDivisionError in std_dev")
    | some sigma => Except.ok (some (list_mean log_values, sigma))

/-- The geometric mean of compute_stats (fetch_historical_returns.py lines
212-218): cumulative product of the growth multipliers; its n-th root minus
one when the product is positive, else the sentinel -1.  The n-th root
(Python cumulative ** (1 / n)) is a parameter so the same definition serves
the executable model at ℚ and the claims about its value at ℝ. -/
def geo_mean {α : Type} [LinearOrderedField α] (nthRoot : α → ℕ → α)
    (arr : List α) : α :=
  let cumulative := (arr.map (fun r => 1 + r)).prod
  if 0 < cumulative then nthRoot cumulative arr.length - 1 else -1

/-- np.std(arr, ddof=1) at line 230: the sample standard deviation, NaN (none)
when fewer than two observations leave no degree of freedom (NumPy emits a
RuntimeWarning and yields NaN, it does not raise). -/
def np_std_ddof1 (sqrtFn : ℚ → ℚ) (arr : List ℚ) : Option ℚ :=
  if arr.length < 2 then none
  else some (sqrtFn ((arr.map (fun x => (x - list_mean arr) ^ 2)).sum
    / ((arr.length : ℚ) - 1)))

/-- The AssetStats record (fetch_historical_returns.py lines 168-201). -/
structure AssetStats where
  name : String
  description : String
  source : String
  start_year : ℤ
  end_year : ℤ
  num_years : ℕ
  annual_returns : List ℚ
  arithmetic_mean : ℚ
  geometric_mean : ℚ
  std_dev : Option ℚ
  min_return : ℚ
  max_return : ℚ
  skewness : Option ℚ
  kurtosis : Option ℚ
deriving DecidableEq

/-- returns.dropna() at line 206: a pandas series is modelled as a list of
(index year, value) pairs with NaN values as none; dropna keeps the
non-missing points. -/
def dropna (points : List (ℤ × Option ℚ)) : List (ℤ × ℚ) :=
  points.filterMap (fun p => (p.2).map (fun v => (p.1, v)))

/-- compute_stats (fetch_historical_returns.py lines 204-235).  The
floating-point kernels -- the n-th root inside the geometric mean, the square
root inside the standard deviation, and the pandas skew and kurtosis
estimators -- are parameters.  It raises (Except.error) exactly when no valid
observation remains after dropna. -/
def compute_stats (nthRoot : ℚ → ℕ → ℚ) (sqrtFn : ℚ → ℚ)
    (skewFn kurtFn : List ℚ → Option ℚ)
    (name description source : String) (points : List (ℤ × Option ℚ)) :
    Except String AssetStats :=
  let kept := dropna points
  let arr := kept.map Prod.snd
  if arr.length = 0 then
    Except.error ( "No valid returns data for " ++ name)
  else
    Except.ok
      { name := name
        description := description
        source := source
        start_year := ((kept.map Prod.fst).min?).getD 0
        end_year := ((kept.map Prod.fst).max?).getD 0
        num_years := arr.length
        annual_returns := arr
        arithmetic_mean := list_mean arr
        geometric_mean := geo_mean nthRoot arr
        std_dev := np_std_ddof1 sqrtFn arr
        min_return := (arr.min?).getD 0
        max_return := (arr.max?).getD 0
        skewness := skewFn arr
        kurtosis := kurtFn arr }

/-- Arbitrary stand-in for the floating-point n-th root, used only to evaluate
the model at concrete inputs; the structural theorems hold for every kernel. -/
def idRoot : ℚ → ℕ → ℚ := fun c _ => c

/-- Arbitrary stand-in for the floating-point square root (see idRoot). -/
def idSqrt : ℚ → ℚ := fun x => x

/-- Arbitrary stand-in for the pandas moment estimators (see idRoot). -/
def noMoment : List ℚ → Option ℚ := fun _ => none

theorem dropna_map_some (kept : List (ℤ × ℚ)) :
    dropna (kept.map (fun p => (p.1, some p.2))) = kept := by
  induction kept with
  | nil => rfl
  | cons p rest ih =>
    obtain ⟨y, v⟩ := p
    simp [dropna, List.filterMap_cons] at ih ⊢
    exact ih

/-- Claim C3, counterexample: a series with exactly one observation does not
fail.  compute_stats succeeds on it (the sample standard deviation being the
float NaN), contradicting the claimed InsufficientObservations failure for
fewer than two observations. -/
theorem single_observation_succeeds :
    (compute_stats idRoot idSqrt noMoment noMoment "x" "d" "s"
        [((2000 : ℤ), some ((1 : ℚ) / 10))]).isOk = true := by rfl

/-- Claim C3, amended: compute_stats fails, with the no-valid-data error,
exactly on a series that is empty after dropping missing values; a series with
one retained observation succeeds with an undefined (NaN) sample standard
deviation; a series with two or more retained observations succeeds with a
defined one. -/
theorem compute_stats_failure_condition (nthRoot : ℚ → ℕ → ℚ) (sqrtFn : ℚ → ℚ)
    (skewFn kurtFn : List ℚ → Option ℚ) (name description source : String)
    (points : List (ℤ × Option ℚ)) :
    Except.map (fun st => (st.num_years, st.std_dev.isSome))
        (compute_stats nthRoot sqrtFn skewFn kurtFn name description source
          points)
      = if (dropna points).isEmpty
        then Except.error ( "No valid returns data for " ++ name)
        else Except.ok ((dropna points).length,
          decide (2 ≤ (dropna points).length)) := by
  cases h : dropna points with
  | nil => simp [compute_stats, h, Except.map]
  | cons p rest =>
    simp [compute_stats, h, Except.map, np_std_ddof1]
    rcases rest with _ | ⟨q, rest2⟩
    · simp
    · have h2 : ¬ ((q :: rest2).length + 1 < 2) := by
        simp only [List.length_cons]
        omega
      simp [h2]

/-- Claim C10: compute_stats silently drops the missing (NaN) entries first.
Its result on any series equals its result on the pre-cleaned series of the
retained points (so every statistic, the observation count and the start and
end years depend only on the retained subset), and it fails exactly when
nothing remains after the dropping. -/
theorem compute_stats_uses_retained_subset (nthRoot : ℚ → ℕ → ℚ)
    (sqrtFn : ℚ → ℚ) (skewFn kurtFn : List ℚ → Option ℚ)
    (name description source : String) (points : List (ℤ × Option ℚ)) :
    (compute_stats nthRoot sqrtFn skewFn kurtFn name description source points
      = compute_stats nthRoot sqrtFn skewFn kurtFn name description source
          ((dropna points).map (fun p => (p.1, some p.2)))) ∧
    ((compute_stats nthRoot sqrtFn skewFn kurtFn name description source
        points).isOk = !(dropna points).isEmpty) := by
  constructor
  · simp only [compute_stats, dropna_map_some]
  · cases h : dropna points with
    | nil => simp [compute_stats, h, Except.isOk, Except.toBool]
    | cons p rest => simp [compute_stats, h, Except.isOk, Except.toBool]

/-- Claim C7: for a non-empty series the geometric mean computed by
compute_stats equals the n-th root of the cumulative product of growth
multipliers minus one when that product is strictly positive and the sentinel
-1 otherwise; in particular a series containing a return of exactly -1 has a
zero cumulative product and geometric mean -1. -/
theorem geo_mean_spec (arr : List ℝ) (hne : arr ≠ []) :
    (0 < (arr.map (fun r => 1 + r)).prod →
      geo_mean (fun c n => c ^ ((1 : ℝ) / (n : ℝ))) arr
        = (arr.map (fun r => 1 + r)).prod ^ ((1 : ℝ) / (arr.length : ℝ)) - 1) ∧
    (¬ 0 < (arr.map (fun r => 1 + r)).prod →
      geo_mean (fun c n => c ^ ((1 : ℝ) / (n : ℝ))) arr = -1) ∧
    ((-1 : ℝ) ∈ arr →
      geo_mean (fun c n => c ^ ((1 : ℝ) / (n : ℝ))) arr = -1) := by
  refine ⟨?_, ?_, ?_⟩
  · intro hpos
    simp only [geo_mean]
    rw [if_pos hpos]
  · intro hneg
    simp only [geo_mean]
    rw [if_neg hneg]
  · intro hmem
    have hzero : (arr.map (fun r => 1 + r)).prod = 0 := by
      apply List.prod_eq_zero
      have : (1 : ℝ) + (-1) ∈ arr.map (fun r => 1 + r) :=
        List.mem_map_of_mem _ hmem
      simpa using this
    simp only [geo_mean, hzero]
    rw [if_neg (lt_irrefl 0)]

/-- Concrete instance of the geometric-mean theorem: the singleton series with
a total-loss return -1 has geometric mean -1. -/
theorem geo_mean_spec_witness :
    ([(-1 : ℝ)] ≠ []) ∧
    geo_mean (fun c n => c ^ ((1 : ℝ) / (n : ℝ))) [(-1 : ℝ)] = -1 :=
  ⟨by simp, (geo_mean_spec [(-1 : ℝ)] (by simp)).2.2 (by simp)⟩

theorem length_filter_sub (p : ℚ → Bool) (l : List ℚ) :
    l.length - (l.filter p).length = (l.filter (fun x => ! p x)).length := by
  induction l with
  | nil => rfl
  | cons x xs ih =>
    have hle := List.length_filter_le p xs
    by_cases hx : p x <;> simp [List.filter_cons, hx] <;> omega

/-- The condition under which format_rust_const (fetch_historical_returns.py
lines 1364-1371) includes the LogNormal constant block in its output: positive
arithmetic mean and standard deviation below three times the mean.  A float
NaN standard deviation (none) makes the Python comparison False. -/
def rust_lognormal_included (stats : AssetStats) : Bool :=
  decide (0 < stats.arithmetic_mean) &&
    (match stats.std_dev with
     | none => false
     | some s => decide (s < stats.arithmetic_mean * 3))

/-- Claim C1, counterexample.  First part: on the return series [-0.5, 0.4]
every growth multiplier (0.5 and 1.4) is strictly positive, so by the claim
the LogNormal model is derivable and present in the output; yet the Rust
exporter omits its LogNormal block, because its rule tests the arithmetic mean
(-0.05 here), not the multipliers.  Second part: on the return series
[-1.5, 0.4] a growth multiplier (1.4) is strictly positive, so by the claim
the model is derivable; yet the analysis tool derives nothing there -- the
positive-multiplier subset is a singleton and the sample standard deviation at
line 101 raises an uncaught ZeroDivisionError. -/
theorem rust_lognormal_rule_differs :
    ((Except.map
        (fun st => (rust_lognormal_included st,
          (positive_multipliers st.annual_returns).isEmpty))
        (compute_stats idRoot idSqrt noMoment noMoment "x" "d" "s"
          [((2000 : ℤ), some (-(1 : ℚ) / 2)),
           ((2001 : ℤ), some ((2 : ℚ) / 5))])).toOption
      = some (false, false)) ∧
    ((positive_multipliers [-(3 : ℚ) / 2, (2 : ℚ) / 5]).isEmpty = false) ∧
    (lognormal_fit idSqrt idSqrt [-(3 : ℚ) / 2, (2 : ℚ) / 5]
      = Except.error ( "ZeroDivisionError in std_dev")) := by
  refine ⟨?_, ?_, ?_⟩
  · simp [compute_stats, dropna, Except.map, Except.toOption,
      rust_lognormal_included, positive_multipliers, growth_multipliers,
      list_mean, np_std_ddof1, geo_mean, idRoot, idSqrt, noMoment]
    norm_num
  · norm_num [positive_multipliers, growth_multipliers, List.filter]
  · norm_num [lognormal_fit, positive_multipliers, growth_multipliers,
      List.filter, std_dev_sample]

/-- Claim C1, amended (the analyze_inflation derivation): with no strictly
positive growth multiplier the LogNormal model is omitted; with exactly one,
the tool crashes with an uncaught ZeroDivisionError in the sample standard
deviation, so no model is produced; with at least two, the model is produced
and its parameters are the mean and sample standard deviation of the logs of
the positive-multiplier subset only.  The diagnostic excluded count equals the
number of non-positive multipliers.  The Rust exporter uses the different
inclusion rule shown in the counterexample. -/
theorem lognormal_fit_spec (logFn sqrtFn : ℚ → ℚ) (vs : List ℚ) :
    (positive_multipliers vs = [] →
      lognormal_fit logFn sqrtFn vs = Except.ok none) ∧
    ((positive_multipliers vs).length = 1 →
      lognormal_fit logFn sqrtFn vs
        = Except.error ( "ZeroDivisionError in std_dev")) ∧
    (2 ≤ (positive_multipliers vs).length →
      lognormal_fit logFn sqrtFn vs
        = Except.ok ((std_dev_sample sqrtFn
              ((positive_multipliers vs).map logFn)).map
            (fun sigma =>
              (list_mean ((positive_multipliers vs).map logFn), sigma)))) ∧
    (lognormal_excluded_count vs
        = ((growth_multipliers vs).filter (fun m => decide (m ≤ 0))).length) := by
  refine ⟨?_, ?_, ?_, ?_⟩
  · intro h
    rw [lognormal_fit, if_pos (by simp [h])]
  · intro h
    have hne : ¬ (positive_multipliers vs).isEmpty := by
      rw [List.isEmpty_iff]
      intro hnil
      rw [hnil] at h
      simp at h
    rw [lognormal_fit, if_neg (by simpa using hne)]
    simp [std_dev_sample, h]
  · intro h
    have hne : ¬ (positive_multipliers vs).isEmpty := by
      rw [List.isEmpty_iff]
      intro hnil
      rw [hnil] at h
      simp at h
    rw [lognormal_fit, if_neg (by simpa using hne)]
    have hc : ¬ (positive_multipliers vs).length ≤ 1 := by omega
    simp [std_dev_sample, hc]
  · rw [lognormal_excluded_count, positive_multipliers,
      length_filter_sub (fun m => decide (0 < m)) (growth_multipliers vs)]
    congr 1
    apply List.filter_congr
    intro m _
    by_cases hm : 0 < m
    · simp [hm, not_le.mpr hm]
    · simp [hm, not_lt.mp hm]

/-- Concrete instances of the LogNormal derivation theorem: no positive
multiplier (series with return -2), exactly one (series [-1.5, 0.4]), and two
(series [0.1, 0.2]). -/
theorem lognormal_fit_spec_witness :
    positive_multipliers [(-2 : ℚ)] = [] ∧
    lognormal_fit idSqrt idSqrt [(-2 : ℚ)] = Except.ok none ∧
    (positive_multipliers [-(3 : ℚ) / 2, (2 : ℚ) / 5]).length = 1 ∧
    lognormal_fit idSqrt idSqrt [-(3 : ℚ) / 2, (2 : ℚ) / 5]
      = Except.error ( "ZeroDivisionError in std_dev") ∧
    2 ≤ (positive_multipliers [(1 : ℚ) / 10, (1 : ℚ) / 5]).length ∧
    lognormal_fit idSqrt idSqrt [(1 : ℚ) / 10, (1 : ℚ) / 5]
      = Except.ok ((std_dev_sample idSqrt ((positive_multipliers
            [(1 : ℚ) / 10, (1 : ℚ) / 5]).map idSqrt)).map
          (fun sigma => (list_mean ((positive_multipliers
            [(1 : ℚ) / 10, (1 : ℚ) / 5]).map idSqrt), sigma))) := by
  have h1 : positive_multipliers [(-2 : ℚ)] = [] := by
    norm_num [positive_multipliers, growth_multipliers, List.filter]
  have h2 : (positive_multipliers [-(3 : ℚ) / 2, (2 : ℚ) / 5]).length = 1 := by
    norm_num [positive_multipliers, growth_multipliers, List.filter]
  have h3 : 2 ≤ (positive_multipliers [(1 : ℚ) / 10, (1 : ℚ) / 5]).length := by
    norm_num [positive_multipliers, growth_multipliers, List.filter]
  exact ⟨h1, (lognormal_fit_spec idSqrt idSqrt [(-2 : ℚ)]).1 h1,
    h2, (lognormal_fit_spec idSqrt idSqrt [-(3 : ℚ) / 2, (2 : ℚ) / 5]).2.1 h2,
    h3, (lognormal_fit_spec idSqrt idSqrt
      [(1 : ℚ) / 10, (1 : ℚ) / 5]).2.2.1 h3⟩

/-- The fallback orchestrator (fetch_sp500_best, fetch_historical_returns.py
lines 1081-1111, and its siblings): try the capability-filtered candidates in
order, return the first success immediately, append (adapter id, error) to the
local errors list on each failure, and raise the joined trace only when every
candidate has failed.  Adapter ids and error payloads are abstract. -/
def fetch_best {α β : Type} : List (β × Except β α) → Except (List (β × β)) α
  | [] => Except.error []
  | (adapter, outcome) :: rest =>
    match outcome with
    | Except.ok v => Except.ok v
    | Except.error e =>
      match fetch_best rest with
      | Except.ok v => Except.ok v
      | Except.error rest_trace => Except.error ((adapter, e) :: rest_trace)

/-- The value of the first successful candidate, if any. -/
def first_success {α β : Type} : List (β × Except β α) → Option α
  | [] => none
  | (_, Except.ok v) :: _ => some v
  | (_, Except.error _) :: rest => first_success rest

/-- The ordered (adapter id, error) trace of the failing candidates. -/
def error_trace {α β : Type} : List (β × Except β α) → List (β × β)
  | [] => []
  | (_, Except.ok _) :: rest => error_trace rest
  | (adapter, Except.error e) :: rest => (adapter, e) :: error_trace rest

/-- Claim C4, counterexample: with adapter 0 failing (error 7) and adapter 1
succeeding with value 42, the orchestrator returns exactly Except.ok 42 -- the
same result it returns when adapter 0 is absent altogether -- so a successful
result carries no diagnostic trace of the earlier failure. -/
theorem fetch_best_discards_trace_on_success :
    fetch_best [((0 : ℕ), Except.error (7 : ℕ)), (1, Except.ok (42 : ℕ))]
        = Except.ok 42 ∧
    fetch_best [((1 : ℕ), Except.ok (42 : ℕ))]
        = (Except.ok 42 : Except (List (ℕ × ℕ)) ℕ) :=
  ⟨rfl, rfl⟩

/-- Claim C4, amended: the orchestrator returns the first successful value
(whose provenance the fetched result itself carries); the recorded failures of
earlier adapters are not attached to a successful result -- the ordered
failure trace is surfaced only in the aggregate error raised when every
candidate fails. -/
theorem fetch_best_spec {α β : Type} (cs : List (β × Except β α)) :
    (∀ v : α, first_success cs = some v → fetch_best cs = Except.ok v) ∧
    (first_success cs = none → fetch_best cs = Except.error (error_trace cs)) := by
  induction cs with
  | nil =>
    constructor
    · intro v hv
      cases hv
    · intro _
      rfl
  | cons c rest ih =>
    obtain ⟨adapter, outcome⟩ := c
    cases outcome with
    | ok v =>
      constructor
      · intro w hw
        cases hw
        rfl
      · intro hnone
        cases hnone
    | error e =>
      constructor
      · intro w hw
        have := ih.1 w hw
        simp [fetch_best, this]
      · intro hnone
        have := ih.2 hnone
        simp [fetch_best, this, error_trace]

/-- Concrete instance of the orchestrator theorem: adapter 0 fails with
error 7; with a succeeding adapter 1 the result is its value 42, and with no
other adapter the aggregate error carries the ordered trace. -/
theorem fetch_best_spec_witness :
    fetch_best [((0 : ℕ), Except.error (7 : ℕ)), (1, Except.ok (41 + 1))]
        = Except.ok 42 ∧
    fetch_best [((0 : ℕ), (Except.error (7 : ℕ) : Except ℕ ℕ))]
        = Except.error [(0, 7)] :=
  ⟨(fetch_best_spec [((0 : ℕ), Except.error (7 : ℕ)),
      (1, Except.ok (41 + 1))]).1 42 rfl,
    (fetch_best_spec [((0 : ℕ), (Except.error (7 : ℕ) : Except ℕ ℕ))]).2 rfl⟩

/-- Post-processing of fetch_french_market_returns (fetch_historical_returns.py
lines 498-506): keep years at or after start_year, then drop the current
(incomplete) calendar year.  The Shiller and FRED fetchers apply the same
index-below-current-year filter (lines 324-326, 347-349, 384-386, 1065-1067). -/
def french_market_filter (start_year current_year : ℤ)
    (annual : List (ℤ × ℚ)) : List (ℤ × ℚ) :=
  (annual.filter (fun p => decide (start_year ≤ p.1))).filter
    (fun p => decide (p.1 < current_year))

/-- fetch_yahoo_annual_returns (fetch_historical_returns.py lines 842-890):
year-end prices are resampled, then pct_change turns consecutive year-end
prices into annual returns and dropna removes the first NaN.  The download
window extends through the end of the fetch year and no current-year filter is
applied afterwards, so the last, partial year survives in the result. -/
def yahoo_annual_returns (year_end_prices : List (ℤ × ℚ)) : List (ℤ × ℚ) :=
  (year_end_prices.zip year_end_prices.tail).map
    (fun pq => (pq.2.1, pq.2.2 / pq.1.2 - 1))

/-- Claim C5, counterexample: a REIT fetch performed in year 2025 downloads
prices through the fetch date, and the returned series retains the partial
observation for 2025 itself -- the Yahoo Finance adapter does not exclude the
current calendar year. -/
theorem yahoo_keeps_current_year :
    (yahoo_annual_returns [((2024 : ℤ), 100), ((2025 : ℤ), 110)]).any
        (fun p => decide ((2025 : ℤ) ≤ p.1)) = true := by
  simp [yahoo_annual_returns]

/-- Claim C5, amended: the French-data fetcher (and the Shiller and FRED
fetchers, which use the same filter) returns only points from completed years
strictly before the fetch year; the Yahoo Finance fetchers apply no such
filter (see the counterexample). -/
theorem french_market_filter_excludes_current (start_year current_year : ℤ)
    (annual : List (ℤ × ℚ)) (p : ℤ × ℚ)
    (hp : p ∈ french_market_filter start_year current_year annual) :
    p.1 < current_year := by
  have h := (List.mem_filter.mp hp).2
  simpa using h

/-- Concrete instance of the current-year-exclusion theorem: a 2025 run over a
series with a 2010 point keeps that point and 2010 is before 2025. -/
theorem french_market_filter_excludes_current_witness :
    (((2010 : ℤ), (1 : ℚ) / 10) ∈ french_market_filter 2000 2025
        [((2010 : ℤ), (1 : ℚ) / 10)]) ∧ (2010 : ℤ) < 2025 :=
  ⟨by simp [french_market_filter],
    french_market_filter_excludes_current 2000 2025
      [((2010 : ℤ), (1 : ℚ) / 10)] ((2010 : ℤ), (1 : ℚ) / 10)
      (by simp [french_market_filter])⟩

/-- compute_student_t_scale (fetch_historical_returns.py lines 1334-1344),
with the square root a parameter: it fails for df at most 2, and otherwise
returns std_dev * sqrt((df - 2) / df). -/
def compute_student_t_scale {α : Type} [LinearOrderedField α] (sqrtFn : α → α)
    (std_dev df : α) : Except String α :=
  if df ≤ 2 then Except.error ( "df must be > 2 for finite variance")
  else Except.ok (std_dev * sqrtFn ((df - 2) / df))

/-- Claim C8: for a target standard deviation s at least 0 and degrees of
freedom above 2, the scale is s * sqrt((df - 2) / df) and squaring it recovers
the target variance through the known identity, scale^2 * df / (df - 2) = s^2;
for df at most 2 the computation fails with the invalid-degrees-of-freedom
error. -/
theorem student_t_scale_spec (s df : ℝ) (hs : 0 ≤ s) (hdf : 2 < df) :
    compute_student_t_scale Real.sqrt s df
        = Except.ok (s * Real.sqrt ((df - 2) / df)) ∧
    (s * Real.sqrt ((df - 2) / df)) ^ 2 * df / (df - 2) = s ^ 2 ∧
    (∀ s2 df2 : ℝ, df2 ≤ 2 →
      compute_student_t_scale Real.sqrt s2 df2
        = Except.error ( "df must be > 2 for finite variance")) := by
  have hdf0 : (0 : ℝ) < df := lt_trans (by norm_num) hdf
  have hdf2 : (0 : ℝ) < df - 2 := by linarith
  refine ⟨?_, ?_, ?_⟩
  · rw [compute_student_t_scale, if_neg (not_le.mpr hdf)]
  · have hnn : (0 : ℝ) ≤ (df - 2) / df := div_nonneg (le_of_lt hdf2) (le_of_lt hdf0)
    rw [mul_pow, Real.sq_sqrt hnn]
    field_simp
  · intro s2 df2 h2
    rw [compute_student_t_scale, if_pos h2]

/-- Concrete instance of the Student t scale theorem at the spec example
s = 0.2, df = 5, together with the failure branch at df = 2. -/
theorem student_t_scale_spec_witness :
    (0 : ℝ) ≤ 1 / 5 ∧ (2 : ℝ) < 5 ∧
    compute_student_t_scale Real.sqrt ((1 : ℝ) / 5) 5
        = Except.ok ((1 / 5 : ℝ) * Real.sqrt ((5 - 2) / 5)) ∧
    compute_student_t_scale Real.sqrt (1 : ℝ) 2
        = Except.error ( "df must be > 2 for finite variance") :=
  ⟨by norm_num, by norm_num,
    (student_t_scale_spec (1 / 5) 5 (by norm_num) (by norm_num)).1,
    (student_t_scale_spec (1 / 5) 5 (by norm_num) (by norm_num)).2.2 1 2
      (by norm_num)⟩

/-- Left-pads a digit string with zeros to the requested width. -/
def pad_left_zeros (s : String) (k : ℕ) : String :=
  String.mk (List.replicate (k - s.length) ('0')) ++ s

/-- The decimal string of a natural number scaled by 10 to the d: integer
part, point, d zero-padded fractional digits. -/
def nat_fixed_string (m : ℕ) (d : ℕ) : String :=
  Nat.repr (m / 10 ^ d) ++ "." ++ pad_left_zeros (Nat.repr (m % 10 ^ d)) d

/-- Python fixed-point formatting with d fractional digits, applied to the
exact rational value of the statistic.  Python rounds the binary double half
to even; on exact rationals this is round to nearest, modelled with round
(the two differ only at exact decimal ties, which binary doubles cannot
represent at these magnitudes). -/
def format_fixed (q : ℚ) (d : ℕ) : String :=
  let n : ℤ := round (q * 10 ^ d)
  (if n < 0 then "-" else "") ++ nat_fixed_string n.natAbs d

/-- A statistic cell of the csv output of main (fetch_historical_returns.py
lines 1593-1602): the format spec .6f, fixed six decimal places. -/
def csv_stat (q : ℚ) : String := format_fixed q 6

/-- The rational value a csv statistic cell denotes. -/
def csv_stat_value (q : ℚ) : ℚ := ((round (q * 10 ^ 6) : ℤ) : ℚ) / 10 ^ 6

/-- Drops trailing zero digits, keeping at least one digit after the point,
as the Python general float format does in fixed notation. -/
def strip_trailing_zeros (s : String) : String :=
  let rev := (s.toList.reverse).dropWhile (fun c => c == ('0'))
  let rev2 := match rev with
    | [] => rev
    | c :: _ => if c == ('.') then ('0') :: rev else rev
  String.mk rev2.reverse

/-- A statistic literal of the Rust output (format_rust_const, lines
1355-1384): the format spec .6, six significant digits.  Only the
fixed-notation regime of the Python general format is modelled: for zero, for
magnitudes outside the interval from 1/10000 to 1000000, and for roundings
that carry into the next decade, the rendering is left unmodelled (none). -/
def rust_stat (q : ℚ) : Option String :=
  if q = 0 then none
  else
    let e : ℤ := Int.log 10 |q|
    if e < -4 ∨ 5 < e then none
    else
      let d : ℕ := (5 - e).toNat
      let n : ℤ := round (|q| * 10 ^ d)
      if Int.log 10 ((n : ℚ) / 10 ^ d) ≠ e then none
      else
        some ((if q < 0 then "-" else "") ++
          strip_trailing_zeros (nat_fixed_string n.natAbs d))

/-- The rational value the rendered rust statistic literal denotes (stripping
trailing zeros does not change the denoted value); none outside the modelled
regime of rust_stat. -/
def rust_stat_value (q : ℚ) : Option ℚ :=
  if q = 0 then none
  else
    let e : ℤ := Int.log 10 |q|
    if e < -4 ∨ 5 < e then none
    else
      let d : ℕ := (5 - e).toNat
      let n : ℤ := round (|q| * 10 ^ d)
      if Int.log 10 ((n : ℚ) / 10 ^ d) ≠ e then none
      else some ((if q < 0 then -1 else 1) * ((n : ℚ) / 10 ^ d))

/-- The value a json statistic field denotes: the json branch of main (lines
1579-1591) serialises the float with repr semantics, the shortest decimal
string that parses back to the identical double, so the denoted value is
exactly the statistic itself. -/
def json_stat_value (q : ℚ) : ℚ := q

/-- Claim C6, counterexample.  First part: the statistic value 0.062 is
rendered as 0.062000 in the csv format but as 0.062 in the rust format, so
the rendered statistics are not byte-for-byte identical across the target
formats.  Second part: the statistic value 1.234568 is rendered as 1.23457 in
the rust format (six significant digits keep only five decimal places at this
magnitude), whose denoted value misses the original by 2e-6 -- the rust
rendering does not round-trip within 1e-6. -/
theorem csv_rust_renderings_differ :
    (csv_stat ((62 : ℚ) / 1000) = "0.062000" ∧
     rust_stat ((62 : ℚ) / 1000) = some "0.062" ∧
     rust_stat ((62 : ℚ) / 1000) ≠ some (csv_stat ((62 : ℚ) / 1000))) ∧
    (rust_stat ((1234568 : ℚ) / 1000000) = some "1.23457" ∧
     rust_stat_value ((1234568 : ℚ) / 1000000) = some ((123457 : ℚ) / 100000) ∧
     ¬ (|(123457 : ℚ) / 100000 - (1234568 : ℚ) / 1000000| ≤ 1 / 1000000)) := by
  have h1 : round ((62 : ℚ) / 1000 * 10 ^ 6) = 62000 := by
    rw [round_eq, Int.floor_eq_iff]
    norm_num
  have hcsv : csv_stat ((62 : ℚ) / 1000) = "0.062000" := by
    simp only [csv_stat, format_fixed, h1]
    rfl
  have h0 : ¬ ((62 : ℚ) / 1000 = 0) := by norm_num
  have habs : |(62 : ℚ) / 1000| = 62 / 1000 := abs_of_nonneg (by norm_num)
  have hr : (0 : ℚ) < 62 / 1000 := by norm_num
  have hlog : Int.log 10 ((62 : ℚ) / 1000) = -2 := by
    have hA : ((10 : ℕ) : ℚ) ^ (-2 : ℤ) ≤ 62 / 1000 := by
      rw [zpow_neg]
      norm_num
    have hB : (62 : ℚ) / 1000 < ((10 : ℕ) : ℚ) ^ (-1 : ℤ) := by
      rw [zpow_neg]
      norm_num
    have hA2 := (Int.zpow_le_iff_le_log (by norm_num) hr).mp hA
    have hB2 := (Int.lt_zpow_iff_log_lt (by norm_num) hr).mp hB
    omega
  have h2 : round ((62 : ℚ) / 1000 * 10 ^ ((5 : ℤ) - (-2)).toNat) = 620000 := by
    rw [show (((5 : ℤ) - (-2)).toNat) = 7 by rfl, round_eq, Int.floor_eq_iff]
    norm_num
  have hlog2 : Int.log 10 (((620000 : ℤ) : ℚ) / 10 ^ ((5 : ℤ) - (-2)).toNat)
      = -2 := by
    rw [show (((5 : ℤ) - (-2)).toNat) = 7 by rfl]
    rw [show (((620000 : ℤ) : ℚ) / 10 ^ (7 : ℕ)) = (62 : ℚ) / 1000 by norm_num]
    exact hlog
  have hrust : rust_stat ((62 : ℚ) / 1000) = some "0.062" := by
    simp only [rust_stat, h0, if_false, habs, hlog, h2, hlog2]
    norm_num
    rfl
  have h0b : ¬ ((1234568 : ℚ) / 1000000 = 0) := by norm_num
  have habsb : |(1234568 : ℚ) / 1000000| = 1234568 / 1000000 :=
    abs_of_nonneg (by norm_num)
  have hrb : (0 : ℚ) < 1234568 / 1000000 := by norm_num
  have hlogb : Int.log 10 ((1234568 : ℚ) / 1000000) = 0 := by
    have hA : ((10 : ℕ) : ℚ) ^ (0 : ℤ) ≤ 1234568 / 1000000 := by
      rw [zpow_zero]
      norm_num
    have hB : (1234568 : ℚ) / 1000000 < ((10 : ℕ) : ℚ) ^ (1 : ℤ) := by
      rw [zpow_one]
      norm_num
    have hA2 := (Int.zpow_le_iff_le_log (by norm_num) hrb).mp hA
    have hB2 := (Int.lt_zpow_iff_log_lt (by norm_num) hrb).mp hB
    omega
  have h2b : round ((1234568 : ℚ) / 1000000 * 10 ^ ((5 : ℤ) - 0).toNat)
      = 123457 := by
    rw [show (((5 : ℤ) - 0).toNat) = 5 by rfl, round_eq, Int.floor_eq_iff]
    norm_num
  have hlog2b : Int.log 10 (((123457 : ℤ) : ℚ) / 10 ^ ((5 : ℤ) - 0).toNat)
      = 0 := by
    rw [show (((5 : ℤ) - 0).toNat) = 5 by rfl]
    rw [show (((123457 : ℤ) : ℚ) / 10 ^ (5 : ℕ)) = (123457 : ℚ) / 100000 by
      norm_num]
    have hrc : (0 : ℚ) < 123457 / 100000 := by norm_num
    have hA : ((10 : ℕ) : ℚ) ^ (0 : ℤ) ≤ 123457 / 100000 := by
      rw [zpow_zero]
      norm_num
    have hB : (123457 : ℚ) / 100000 < ((10 : ℕ) : ℚ) ^ (1 : ℤ) := by
      rw [zpow_one]
      norm_num
    have hA2 := (Int.zpow_le_iff_le_log (by norm_num) hrc).mp hA
    have hB2 := (Int.lt_zpow_iff_log_lt (by norm_num) hrc).mp hB
    omega
  have hrustb : rust_stat ((1234568 : ℚ) / 1000000) = some "1.23457" := by
    simp only [rust_stat, h0b, if_false, habsb, hlogb, h2b, hlog2b]
    norm_num
    rfl
  have hvalb : rust_stat_value ((1234568 : ℚ) / 1000000)
      = some ((123457 : ℚ) / 100000) := by
    simp only [rust_stat_value, h0b, if_false, habsb, hlogb, h2b, hlog2b]
    norm_num
    rw [show (Int.toNat 5) = 5 from rfl]
    norm_num
  have hgap : ¬ (|(123457 : ℚ) / 100000 - (1234568 : ℚ) / 1000000|
      ≤ 1 / 1000000) := by
    rw [show (123457 : ℚ) / 100000 - 1234568 / 1000000 = 1 / 500000 by
      norm_num]
    rw [abs_of_pos (by norm_num)]
    norm_num
  refine ⟨⟨hcsv, hrust, ?_⟩, hrustb, hvalb, hgap⟩
  rw [hcsv, hrust]
  decide

/-- Claim C6, amended: the renderings are format-specific (csv fixed six
decimals, rust six significant digits with trailing zeros stripped, json the
full float repr), so they are not byte-identical across the formats; the
value a csv statistic cell denotes round-trips to the original statistic
within 1e-6, and so does the json field value (repr round-trips exactly); the
rust literal does not round-trip within 1e-6 in general, since six
significant digits keep only five decimal places for statistics of magnitude
at least one (see the counterexample). -/
theorem csv_json_stat_roundtrip (q : ℚ) :
    |csv_stat_value q - q| ≤ 1 / 1000000 ∧
    |json_stat_value q - q| ≤ 1 / 1000000 := by
  refine ⟨?_, by simp [json_stat_value]⟩
  have h := abs_sub_round (q * 10 ^ 6)
  rw [csv_stat_value, show ((round (q * 10 ^ 6) : ℤ) : ℚ) / 10 ^ 6 - q
      = (((round (q * 10 ^ 6) : ℤ) : ℚ) - q * 10 ^ 6) / 10 ^ 6 by ring,
    abs_div]
  have h6 : |(10 : ℚ) ^ 6| = 10 ^ 6 := by norm_num
  rw [h6, abs_sub_comm]
  calc |q * 10 ^ 6 - ((round (q * 10 ^ 6) : ℤ) : ℚ)| / 10 ^ 6
      ≤ (1 / 2) / 10 ^ 6 := by
        apply div_le_div_of_nonneg_right h
        norm_num
  _ ≤ 1 / 1000000 := by norm_num

end Finplan
